import Mathlib

/-!
Verification of the fbtrace launcher (`src/main.rs`) against its design
specification.  The program is embedded shallowly: the event catalog, the
configuration-document renderer (`write_config_file`'s template), the
`fbtracemgr` argument construction, and `main`'s stage sequencing are
translated into executable Lean definitions.  File-system and process
outcomes are supplied by an explicit `World` of oracle results, and `runMain`
returns a `RunTrace` recording which side effects were attempted and the
final `Result` of `main`.
-/

namespace Fbtrace

/-! ## Event-identifier constants (src/main.rs lines 7-19) -/

def OPT_CONNECTIONS : String := "connections"

def OPT_TRANSACTIONS : String := "transactions"

def OPT_STATEMENT_PREPARE : String := "statement_prepare"

def OPT_STATEMENT_FREE : String := "statement_free"

def OPT_STATEMENT_START : String := "statement_start"

def OPT_STATEMENT_FINISH : String := "statement_finish"

def OPT_PROCEDURE_START : String := "procedure_start"

def OPT_PROCEDURE_FINISH : String := "procedure_finish"

def OPT_TRIGGER_START : String := "trigger_start"

def OPT_TRIGGER_FINISH : String := "trigger_finish"

def OPT_CONTEXT : String := "context"

def OPT_ERRORS : String := "errors"

def OPT_SWEEP : String := "sweep"

/-- The legal event catalog (src/main.rs lines 21-34).  Note that
`OPT_CONNECTIONS` is deliberately absent, exactly as in the source. -/
def LEGAL_OPTS : List String :=
  [OPT_TRANSACTIONS, OPT_STATEMENT_PREPARE, OPT_STATEMENT_FREE,
   OPT_STATEMENT_START, OPT_STATEMENT_FINISH, OPT_PROCEDURE_START,
   OPT_PROCEDURE_FINISH, OPT_TRIGGER_START, OPT_TRIGGER_FINISH,
   OPT_CONTEXT, OPT_ERRORS, OPT_SWEEP]

def CONFIG_FILE_NAME : String := "fbtrace.conf"

def TRACE_NAME : String := "rust-fbtrace"

/-! ## Error taxonomy (src/main.rs lines 39-44).
`Dyn` carries the spawn error's message, `Io` the I/O error's message. -/

inductive AppError where
  | InvalidOpt : String → AppError
  | Dyn : String → AppError
  | Io : String → AppError
deriving DecidableEq, Repr

/-- Rust `{:?}` debug rendering of a slice of plain (escape-free) strings,
as used by `Display for AppError` on `LEGAL_OPTS`. -/
def debugStrList (l : List String) : String :=
  "[" ++ String.intercalate ", " (l.map (fun s => "\"" ++ s ++ "\"")) ++ "]"

/-- `Display for AppError` (src/main.rs lines 60-73). -/
def displayAppError : AppError → String
  | AppError.InvalidOpt o =>
      "The specified event '" ++
        (o ++ ("' is not a valid for subscription. Valid events are " ++
          (debugStrList LEGAL_OPTS ++ ".")))
  | AppError.Dyn d => d
  | AppError.Io i => i

/-! ## CLI arguments (src/main.rs lines 75-103) -/

structure Args where
  host : Option String
  include_filter : Option String
  user : String
  pass : String
  max_sql : Nat
  database_matcher : Option String
  events : List String

/-- The event-validation loop at the top of `main`
(src/main.rs lines 107-113): scan `events` in input order and fail with
`InvalidOpt` on the first identifier not contained in `LEGAL_OPTS`. -/
def validate : List String → Except AppError Unit
  | [] => Except.ok ()
  | e :: rest =>
      if LEGAL_OPTS.contains e then validate rest
      else Except.error (AppError.InvalidOpt e)

/-! ## Config-document rendering (`write_config_file`, src/main.rs 146-229) -/

/-- Rust `Display` of a `bool`. -/
def boolStr (b : Bool) : String := if b then "true" else "false"

/-- The `e!` macro (src/main.rs lines 160-165): membership of an event
identifier in the request's `events` vector. -/
def hasEvent (args : Args) (opt : String) : Bool := args.events.contains opt

/-- `db_pattern` (src/main.rs lines 167-170). -/
def dbPattern (args : Args) : String :=
  match args.database_matcher with
  | some p => "<database " ++ p ++ ">"
  | none => "<database>"

/-- The include-filter fragment (src/main.rs lines 205-209): empty when the
filter is absent, otherwise the directive with the filter in double quotes,
unescaped. -/
def filterFragment (args : Args) : String :=
  match args.include_filter with
  | some inc => "include_filter \"" ++ inc ++ "\""
  | none => ""

/-- One `log_<name> <bool>` template line with its four-space indent. -/
def logLine (name : String) (b : Bool) : String :=
  "    log_" ++ name ++ " " ++ boolStr b

/-- The lines of the rendered configuration document, in template order
(src/main.rs lines 172-226).  The document text is their newline join; the
template's leading newline is the initial empty line, and the
`log_statement_start` template line carries a trailing space exactly as in
the source. -/
def renderLines (args : Args) : List String :=
  [ ""
  , dbPattern args
  , "    enabled true"
  , "    " ++ filterFragment args
  , logLine OPT_CONNECTIONS (hasEvent args OPT_CONNECTIONS)
  , logLine OPT_TRANSACTIONS (hasEvent args OPT_TRANSACTIONS)
  , logLine OPT_STATEMENT_PREPARE (hasEvent args OPT_STATEMENT_PREPARE)
  , logLine OPT_STATEMENT_FREE (hasEvent args OPT_STATEMENT_FREE)
  , logLine OPT_STATEMENT_START (hasEvent args OPT_STATEMENT_START) ++ " "
  , logLine OPT_STATEMENT_FINISH (hasEvent args OPT_STATEMENT_FINISH)
  , logLine OPT_PROCEDURE_START (hasEvent args OPT_PROCEDURE_START)
  , logLine OPT_PROCEDURE_FINISH (hasEvent args OPT_PROCEDURE_FINISH)
  , logLine OPT_TRIGGER_START (hasEvent args OPT_TRIGGER_START)
  , logLine OPT_TRIGGER_FINISH (hasEvent args OPT_TRIGGER_FINISH)
  , logLine OPT_CONTEXT (hasEvent args OPT_CONTEXT)
  , logLine OPT_ERRORS (hasEvent args OPT_ERRORS)
  , logLine OPT_SWEEP (hasEvent args OPT_SWEEP)
  , "    print_plan false"
  , "    print_perf false"
  , "    log_blr_requests false"
  , "    print_blr false"
  , "    log_dyn_requests false"
  , "    print_dyn false"
  , "    time_threshold 100"
  , "    max_sql_length " ++ toString args.max_sql
  , "    max_blr_length 500"
  , "    max_dyn_length 500"
  , "    max_arg_length 80"
  , "    max_arg_count 30"
  , "</database>" ]

/-- The full rendered document written by `write_config_file`. -/
def renderConfig (args : Args) : String :=
  String.intercalate "\n" (renderLines args)

/-! ## Directive observations on a rendered document.

A directive line in the template is four spaces of indent, the directive
name, a space, then the value text.  These observation functions are used to
state the spec's claims about the document's lines. -/

/-- `leadsWith pat l` is true when the character list `l` starts with
`pat`.  (Defined by recursion on `pat` alone so that it reduces whenever the
leading characters of `l` are known, even if its tail is not.) -/
def leadsWith : List Char → List Char → Bool
  | [], _ => true
  | c :: p, l =>
    match l with
    | [] => false
    | d :: l' => c == d && leadsWith p l'

/-- The leading characters of a directive line for directive `name`. -/
def dirLead (name : String) : List Char := ("    " ++ name ++ " ").data

/-- Does `line` carry directive `name`? -/
def isDir (name : String) (line : String) : Bool :=
  leadsWith (dirLead name) line.data

/-- How many lines carry directive `name`. -/
def countDir (name : String) (lines : List String) : Nat :=
  lines.countP (isDir name)

/-- Index of the (first) line carrying directive `name`. -/
def idxDir (name : String) (lines : List String) : Option Nat :=
  lines.findIdx? (isDir name)

/-- The first whitespace-delimited value token of directive `name`. -/
def dirValue (name : String) (lines : List String) : Option String :=
  (lines.find? (isDir name)).map
    (fun l => String.mk (((l.data).drop (dirLead name).length).takeWhile
      (fun c => c != ' ')))

/-- The full text following `name` on its directive line. -/
def dirText (name : String) (lines : List String) : Option String :=
  (lines.find? (isDir name)).map
    (fun l => String.mk ((l.data).drop (dirLead name).length))

/-- The first non-empty line of the document (the one the document "opens"
with, after the template's leading newline). -/
def openingLine (lines : List String) : Option String :=
  lines.find? (fun l => !(l == ""))

/-- Name of an opening tag `<name ...>` or `<name>`. -/
def openTagName (l : String) : String :=
  String.mk ((l.data.drop 1).takeWhile (fun c => c != ' ' && c != '>'))

/-- Name of a closing tag `</name>`. -/
def closeTagName (l : String) : String :=
  String.mk ((l.data.drop 2).takeWhile (fun c => c != ' ' && c != '>'))

/-! ## Subprocess invocation (src/main.rs lines 119-141) -/

/-- The `-SE` service target: `"<host>:service_mgr"` when a host was given,
the bare `"service_mgr"` otherwise (src/main.rs lines 122-126). -/
def serviceTarget (args : Args) : String :=
  match args.host with
  | some x => x ++ ":service_mgr"
  | none => "service_mgr"

/-- The argument list passed to `Command::new("fbtracemgr").args([...])`. -/
def fbtracemgrArgs (args : Args) : List String :=
  ["-SE", serviceTarget args, "-USER", args.user, "-PASS", args.pass,
   "-START", "-NAME", TRACE_NAME, "-CONFIG", CONFIG_FILE_NAME]

/-! ## Whole-run semantics.

`World` supplies the outcome of each external operation: opening the config
file, writing it, spawning `fbtracemgr`, and waiting on the child (`none`
means success; for the wait, the child's own exit status or an OS error).
`RunTrace` records which effects were attempted and the `Result` value that
`main` returns. -/

structure World where
  openErr : Option String
  writeErr : Option String
  spawnErr : Option String
  waitRes : Except String Int

structure RunTrace where
  openAttempted : Bool
  writePath : Option String
  fileWritten : Option String
  spawnAttempted : Bool
  waited : Bool
  result : Except AppError Unit
deriving Repr

/-- `main` (src/main.rs lines 105-144): validate the events, write the
configuration file, spawn `fbtracemgr`, and wait on it with the wait's own
result discarded (`let _ = ... r.wait()`). -/
def runMain (args : Args) (w : World) : RunTrace :=
  match validate args.events with
  | Except.error e =>
      ⟨false, none, none, false, false, Except.error e⟩
  | Except.ok _ =>
    match w.openErr with
    | some m =>
        ⟨true, some CONFIG_FILE_NAME, none, false, false,
          Except.error (AppError.Io m)⟩
    | none =>
      match w.writeErr with
      | some m =>
          ⟨true, some CONFIG_FILE_NAME, none, false, false,
            Except.error (AppError.Io m)⟩
      | none =>
        match w.spawnErr with
        | some m =>
            ⟨true, some CONFIG_FILE_NAME, some (renderConfig args), true,
              false, Except.error (AppError.Dyn m)⟩
        | none =>
            ⟨true, some CONFIG_FILE_NAME, some (renderConfig args), true,
              true, Except.ok ()⟩

/-- Process exit code of `main`'s `Result` under Rust's `Termination`
instance: `Ok` exits 0, `Err` exits 1. -/
def exitCode (t : RunTrace) : Nat :=
  match t.result with
  | Except.ok _ => 0
  | Except.error _ => 1

/-! ## Basic lemmas -/

set_option maxRecDepth 10000

/-- Sanity check of the renderer against spec §8, scenario 1: the full
document text for `events = {transactions, errors}`, no host, no matcher,
no filter, `maxSql = 65536`.  (Note the template's leading newline, the
bare indent where the omitted include-filter fragment sits, and the
trailing space of the `log_statement_start` line, all exactly as in the
source template.) -/

lemma renderConfig_scenario1 :
    renderConfig ⟨none, none, "sysdba", "masterkey", 65536, none,
        ["transactions", "errors"]⟩ =
      "\n<database>\n    enabled true\n    \n    log_connections false\n    log_transactions true\n    log_statement_prepare false\n    log_statement_free false\n    log_statement_start false \n    log_statement_finish false\n    log_procedure_start false\n    log_procedure_finish false\n    log_trigger_start false\n    log_trigger_finish false\n    log_context false\n    log_errors true\n    log_sweep false\n    print_plan false\n    print_perf false\n    log_blr_requests false\n    print_blr false\n    log_dyn_requests false\n    print_dyn false\n    time_threshold 100\n    max_sql_length 65536\n    max_blr_length 500\n    max_dyn_length 500\n    max_arg_length 80\n    max_arg_count 30\n</database>" := by
  rfl

lemma takeWhile_boolStr (b : Bool) :
    String.mk ((boolStr b).data.takeWhile (fun c => c != ' ')) = boolStr b := by
  cases b <;> rfl

lemma takeWhile_boolStr_sp (b : Bool) :
    String.mk (((boolStr b).data ++ [' ']).takeWhile (fun c => c != ' ')) =
      boolStr b := by
  cases b <;> rfl

lemma boolStr_contains (l : List String) (a : String) :
    boolStr (l.contains a) = if a ∈ l then "true" else "false" := by
  by_cases h : a ∈ l
  · simp [boolStr, h]
  · simp [boolStr, h]

/-- Each catalog entry's `log_` directive occurs on exactly one line of the
rendered document. -/
lemma countDir_log (args : Args) (opt : String) (hopt : opt ∈ LEGAL_OPTS) :
    countDir ("log_" ++ opt) (renderLines args) = 1 := by
  obtain ⟨host, ifilt, user, pass, maxsql, dbm, evs⟩ := args
  fin_cases hopt <;> rcases dbm with _ | mp <;> rcases ifilt with _ | fs <;> rfl

/-- The value of each catalog entry's `log_` directive is the rendering of
its membership test in the request's `events`. -/
lemma dirValue_log (args : Args) (opt : String) (hopt : opt ∈ LEGAL_OPTS) :
    dirValue ("log_" ++ opt) (renderLines args) =
      some (boolStr (args.events.contains opt)) := by
  obtain ⟨host, ifilt, user, pass, maxsql, dbm, evs⟩ := args
  fin_cases hopt <;> rcases dbm with _ | mp <;> rcases ifilt with _ | fs <;>
    first
      | (refine Eq.trans ?_ (congrArg some (takeWhile_boolStr _)); rfl)
      | (refine Eq.trans ?_ (congrArg some (takeWhile_boolStr_sp _)); rfl)

/-- The line positions of the catalog entries' `log_` directives, in catalog
order: lines 5 through 16 of the rendered document. -/
lemma idxDir_log_map (args : Args) :
    LEGAL_OPTS.map (fun o => idxDir ("log_" ++ o) (renderLines args)) =
      [some 5, some 6, some 7, some 8, some 9, some 10, some 11, some 12,
       some 13, some 14, some 15, some 16] := by
  obtain ⟨host, ifilt, user, pass, maxsql, dbm, evs⟩ := args
  rcases dbm with _ | mp <;> rcases ifilt with _ | fs <;> rfl

/-- `validate` succeeds exactly when every requested event identifier is in
the legal catalog. -/
lemma validate_ok_iff (evs : List String) :
    validate evs = Except.ok () ↔ ∀ e ∈ evs, e ∈ LEGAL_OPTS := by
  induction evs with
  | nil => simp [validate]
  | cons e rest ih =>
      by_cases h : LEGAL_OPTS.contains e
      · have hm : e ∈ LEGAL_OPTS := by simpa using h
        simp [validate, h, ih, hm]
      · have hm : e ∉ LEGAL_OPTS := by simpa using h
        simp [validate, h, hm]

/-- A run writes the config file only after successful validation, and what
it writes is exactly `renderConfig`. -/
lemma fileWritten_cases (args : Args) (w : World) :
    (runMain args w).fileWritten = none ∨
      (validate args.events = Except.ok () ∧
        (runMain args w).fileWritten = some (renderConfig args)) := by
  rcases w with ⟨oe, we, se, wr⟩
  unfold runMain
  cases hv : validate args.events with
  | error e => left; rfl
  | ok u =>
      cases u
      rcases oe with _ | m1
      · rcases we with _ | m2
        · rcases se with _ | m3
          · exact Or.inr ⟨rfl, rfl⟩
          · exact Or.inr ⟨rfl, rfl⟩
        · left; rfl
      · left; rfl

/-- The value of the `log_connections` directive, which sits outside the
legal catalog, is likewise the membership test of `"connections"` in the
request's `events`. -/
lemma dirValue_log_connections (args : Args) :
    dirValue ("log_" ++ OPT_CONNECTIONS) (renderLines args) =
      some (boolStr (args.events.contains OPT_CONNECTIONS)) := by
  obtain ⟨host, ifilt, user, pass, maxsql, dbm, evs⟩ := args
  rcases dbm with _ | mp <;> rcases ifilt with _ | fs <;>
    (refine Eq.trans ?_ (congrArg some (takeWhile_boolStr _)); rfl)

/-- Whenever a run reaches the rendering stage, the file path it opens is
the fixed `CONFIG_FILE_NAME`. -/
lemma writePath_of_openAttempted (args : Args) (w : World)
    (h : (runMain args w).openAttempted = true) :
    (runMain args w).writePath = some CONFIG_FILE_NAME := by
  rcases w with ⟨oe, we, se, wr⟩
  cases hv : validate args.events <;>
    rcases oe with _ | m1 <;> rcases we with _ | m2 <;> rcases se with _ | m3 <;>
      simp_all [runMain]

/-! ## The claims -/

/-- C1: For every validated TraceRequest, the rendered configuration
document contains exactly one `log_<identifier>` directive per entry of the
legal event catalog, emitted in catalog order (the twelve catalog
directives sit on lines 5 through 16 of the document, in catalog order),
whose value is the literal string `true` if that identifier occurs in the
request's `events` and `false` otherwise — never fewer directives and never
more. -/
theorem C1_one_log_directive_per_catalog_entry (args : Args)
    (_hval : validate args.events = Except.ok ()) :
    (∀ opt ∈ LEGAL_OPTS,
        countDir ("log_" ++ opt) (renderLines args) = 1 ∧
        dirValue ("log_" ++ opt) (renderLines args) =
          some (if opt ∈ args.events then "true" else "false")) ∧
    LEGAL_OPTS.map (fun o => idxDir ("log_" ++ o) (renderLines args)) =
      [some 5, some 6, some 7, some 8, some 9, some 10, some 11, some 12,
       some 13, some 14, some 15, some 16] := by
  refine ⟨fun opt hopt => ⟨countDir_log args opt hopt, ?_⟩, idxDir_log_map args⟩
  rw [dirValue_log args opt hopt, boolStr_contains]

/-- Witness for C1 at the request `events = ["errors"]`. -/
theorem C1_one_log_directive_per_catalog_entry_witness :
    validate (⟨none, none, "u", "p", 65536, none, ["errors"]⟩ : Args).events =
        Except.ok () ∧
    (countDir ("log_" ++ OPT_ERRORS)
        (renderLines ⟨none, none, "u", "p", 65536, none, ["errors"]⟩) = 1 ∧
      dirValue ("log_" ++ OPT_ERRORS)
        (renderLines ⟨none, none, "u", "p", 65536, none, ["errors"]⟩) =
          some (if OPT_ERRORS ∈
              (⟨none, none, "u", "p", 65536, none, ["errors"]⟩ : Args).events
            then "true" else "false")) ∧
    LEGAL_OPTS.map (fun o => idxDir ("log_" ++ o)
        (renderLines ⟨none, none, "u", "p", 65536, none, ["errors"]⟩)) =
      [some 5, some 6, some 7, some 8, some 9, some 10, some 11, some 12,
       some 13, some 14, some 15, some 16] :=
  ⟨rfl,
    (C1_one_log_directive_per_catalog_entry
      ⟨none, none, "u", "p", 65536, none, ["errors"]⟩ rfl).1
      OPT_ERRORS (by decide),
    (C1_one_log_directive_per_catalog_entry
      ⟨none, none, "u", "p", 65536, none, ["errors"]⟩ rfl).2⟩

/-- C2: For every requested event list containing at least one identifier
not in the legal catalog, validation fails with `InvalidOpt` naming exactly
the first non-member in input order (everything before it in the list is a
catalog member), `main` returns that error, and the displayed error report
contains both the offending identifier and the debug rendering of the full
legal set. -/
theorem C2_first_invalid_event_reported (events : List String)
    (h : ∃ e ∈ events, e ∉ LEGAL_OPTS) :
    ∃ pre e suf, events = pre ++ e :: suf ∧
      (∀ x ∈ pre, x ∈ LEGAL_OPTS) ∧ e ∉ LEGAL_OPTS ∧
      validate events = Except.error (AppError.InvalidOpt e) ∧
      (∃ a b, displayAppError (AppError.InvalidOpt e) = a ++ (e ++ b)) ∧
      (∃ a b, displayAppError (AppError.InvalidOpt e) =
        a ++ (debugStrList LEGAL_OPTS ++ b)) ∧
      (∀ args w, args.events = events →
        (runMain args w).result = Except.error (AppError.InvalidOpt e)) := by
  induction events with
  | nil => exact absurd h (by simp)
  | cons x rest ih =>
    by_cases hx : x ∈ LEGAL_OPTS
    · have h' : ∃ e ∈ rest, e ∉ LEGAL_OPTS := by
        rcases h with ⟨e, he, hne⟩
        rcases List.mem_cons.mp he with rfl | hm
        · exact absurd hx hne
        · exact ⟨e, hm, hne⟩
      obtain ⟨pre, e, suf, hsplit, hpre, hne, hval, hd1, hd2, _⟩ := ih h'
      have hvx : validate (x :: rest) = Except.error (AppError.InvalidOpt e) := by
        simpa [validate, hx] using hval
      refine ⟨x :: pre, e, suf, by simp [hsplit], ?_, hne, hvx, hd1, hd2, ?_⟩
      · intro y hy
        rcases List.mem_cons.mp hy with rfl | hm
        · exact hx
        · exact hpre y hm
      · intro args w hargs
        have hv : validate args.events = Except.error (AppError.InvalidOpt e) := by
          rw [hargs]; exact hvx
        unfold runMain
        rw [hv]
    · have hvx : validate (x :: rest) = Except.error (AppError.InvalidOpt x) := by
        simp [validate, hx]
      refine ⟨[], x, rest, rfl, by simp, hx, hvx, ?_, ?_, ?_⟩
      · exact ⟨"The specified event '",
          "' is not a valid for subscription. Valid events are " ++
            (debugStrList LEGAL_OPTS ++ "."), rfl⟩
      · refine ⟨"The specified event '" ++
          (x ++ "' is not a valid for subscription. Valid events are "),
          ".", ?_⟩
        simp [displayAppError, String.append_assoc]
      · intro args w hargs
        have hv : validate args.events = Except.error (AppError.InvalidOpt x) := by
          rw [hargs]; exact hvx
        unfold runMain
        rw [hv]

/-- Witness for C2 at the request `events = ["bogus_event"]`
(spec §8, scenario 3). -/
theorem C2_first_invalid_event_reported_witness :
    (∃ e ∈ (["bogus_event"] : List String), e ∉ LEGAL_OPTS) ∧
    (∃ pre e suf, (["bogus_event"] : List String) = pre ++ e :: suf ∧
      (∀ x ∈ pre, x ∈ LEGAL_OPTS) ∧ e ∉ LEGAL_OPTS ∧
      validate ["bogus_event"] = Except.error (AppError.InvalidOpt e) ∧
      (∃ a b, displayAppError (AppError.InvalidOpt e) = a ++ (e ++ b)) ∧
      (∃ a b, displayAppError (AppError.InvalidOpt e) =
        a ++ (debugStrList LEGAL_OPTS ++ b)) ∧
      (∀ args w, args.events = ["bogus_event"] →
        (runMain args w).result = Except.error (AppError.InvalidOpt e))) :=
  ⟨by decide, C2_first_invalid_event_reported ["bogus_event"] (by decide)⟩

/-- C3: For every requested event list all of whose elements are members of
the legal catalog — in any order, with duplicates, including the empty list
— validation succeeds and the run proceeds to the rendering stage. -/
theorem C3_all_members_validate_ok (args : Args) (w : World)
    (h : ∀ e ∈ args.events, e ∈ LEGAL_OPTS) :
    validate args.events = Except.ok () ∧
    (runMain args w).openAttempted = true := by
  have hv : validate args.events = Except.ok () := (validate_ok_iff _).mpr h
  refine ⟨hv, ?_⟩
  unfold runMain
  rw [hv]
  rcases w with ⟨oe, we, se, wr⟩
  rcases oe with _ | m1 <;> rcases we with _ | m2 <;> rcases se with _ | m3 <;>
    rfl

/-- Witness for C3 at a duplicated, catalog-order-violating request. -/
theorem C3_all_members_validate_ok_witness :
    (∀ e ∈ (⟨none, none, "u", "p", 65536, none,
        ["errors", "errors", "transactions"]⟩ : Args).events,
      e ∈ LEGAL_OPTS) ∧
    (validate (⟨none, none, "u", "p", 65536, none,
        ["errors", "errors", "transactions"]⟩ : Args).events = Except.ok () ∧
      (runMain ⟨none, none, "u", "p", 65536, none,
          ["errors", "errors", "transactions"]⟩
        ⟨none, none, none, Except.ok 0⟩).openAttempted = true) :=
  ⟨by decide, C3_all_members_validate_ok _ _ (by decide)⟩

/-- C4: Failures are stage-atomic: an `InvalidOpt` result means the config
file was never opened or written and no subprocess was spawned; an I/O
(`ConfigIOError`) result means no subprocess was spawned; and every error
result exits non-zero. -/
theorem C4_stage_atomic_failures (args : Args) (w : World) :
    (∀ e, (runMain args w).result = Except.error (AppError.InvalidOpt e) →
      (runMain args w).openAttempted = false ∧
      (runMain args w).fileWritten = none ∧
      (runMain args w).spawnAttempted = false) ∧
    (∀ m, (runMain args w).result = Except.error (AppError.Io m) →
      (runMain args w).spawnAttempted = false) ∧
    (∀ err, (runMain args w).result = Except.error err →
      exitCode (runMain args w) ≠ 0) := by
  rcases w with ⟨oe, we, se, wr⟩
  cases hv : validate args.events <;>
    rcases oe with _ | m1 <;> rcases we with _ | m2 <;> rcases se with _ | m3 <;>
      refine ⟨fun e he => ?_, fun m hm => ?_, fun err herr => ?_⟩ <;>
        simp_all [runMain, exitCode]

/-- Witness for C4: an invalid-event run and a failed-open run. -/
theorem C4_stage_atomic_failures_witness :
    ((runMain ⟨none, none, "u", "p", 65536, none, ["bogus_event"]⟩
        ⟨none, none, none, Except.ok 0⟩).openAttempted = false ∧
      (runMain ⟨none, none, "u", "p", 65536, none, ["bogus_event"]⟩
        ⟨none, none, none, Except.ok 0⟩).fileWritten = none ∧
      (runMain ⟨none, none, "u", "p", 65536, none, ["bogus_event"]⟩
        ⟨none, none, none, Except.ok 0⟩).spawnAttempted = false) ∧
    ((runMain ⟨none, none, "u", "p", 65536, none, ["errors"]⟩
        ⟨some "permission denied", none, none, Except.ok 0⟩).spawnAttempted =
      false) ∧
    (exitCode (runMain ⟨none, none, "u", "p", 65536, none, ["bogus_event"]⟩
        ⟨none, none, none, Except.ok 0⟩) ≠ 0) :=
  ⟨(C4_stage_atomic_failures ⟨none, none, "u", "p", 65536, none,
      ["bogus_event"]⟩ ⟨none, none, none, Except.ok 0⟩).1 "bogus_event" rfl,
    (C4_stage_atomic_failures ⟨none, none, "u", "p", 65536, none, ["errors"]⟩
      ⟨some "permission denied", none, none, Except.ok 0⟩).2.1
      "permission denied" rfl,
    (C4_stage_atomic_failures ⟨none, none, "u", "p", 65536, none,
      ["bogus_event"]⟩ ⟨none, none, none, Except.ok 0⟩).2.2
      (AppError.InvalidOpt "bogus_event") rfl⟩

/-- C5: The event identifier `connections` emitted by the rendering
template is not a member of the legal catalog, no request containing it
ever passes validation, and every configuration document actually written
is `renderConfig args` with its `log_connections` directive valued
`false`. -/
theorem C5_connections_never_requestable :
    OPT_CONNECTIONS ∉ LEGAL_OPTS ∧
    (∀ events : List String, OPT_CONNECTIONS ∈ events →
      validate events ≠ Except.ok ()) ∧
    (∀ args w doc, (runMain args w).fileWritten = some doc →
      doc = renderConfig args ∧
      dirValue ("log_" ++ OPT_CONNECTIONS) (renderLines args) =
        some "false") := by
  refine ⟨by decide, ?_, ?_⟩
  · intro events hmem hok
    exact absurd ((validate_ok_iff events).mp hok OPT_CONNECTIONS hmem)
      (by decide)
  · intro args w doc hw
    rcases fileWritten_cases args w with hno | ⟨hv, hsome⟩
    · rw [hno] at hw; cases hw
    · rw [hsome] at hw
      have hdoc : doc = renderConfig args := (Option.some.inj hw).symm
      have hnc : args.events.contains OPT_CONNECTIONS = false := by
        cases hcon : args.events.contains OPT_CONNECTIONS
        · rfl
        · exfalso
          have hm : OPT_CONNECTIONS ∈ args.events := by simpa using hcon
          exact absurd ((validate_ok_iff _).mp hv OPT_CONNECTIONS hm)
            (by decide)
      refine ⟨hdoc, ?_⟩
      rw [dirValue_log_connections args, hnc]
      rfl

/-- Witness for C5: a request for `connections` fails validation, and a
successful run's document has `log_connections false`. -/
theorem C5_connections_never_requestable_witness :
    (OPT_CONNECTIONS ∈ (["connections"] : List String)) ∧
    (validate ["connections"] ≠ Except.ok ()) ∧
    ((renderConfig ⟨none, none, "u", "p", 65536, none, ["errors"]⟩ =
        renderConfig ⟨none, none, "u", "p", 65536, none, ["errors"]⟩) ∧
      dirValue ("log_" ++ OPT_CONNECTIONS)
        (renderLines ⟨none, none, "u", "p", 65536, none, ["errors"]⟩) =
          some "false") :=
  ⟨by decide,
    C5_connections_never_requestable.2.1 ["connections"] (by decide),
    C5_connections_never_requestable.2.2
      ⟨none, none, "u", "p", 65536, none, ["errors"]⟩
      ⟨none, none, none, Except.ok 0⟩
      (renderConfig ⟨none, none, "u", "p", 65536, none, ["errors"]⟩) rfl⟩

/-- C6: When `includeFilter` is `None` the rendered document has no
`include_filter` directive at all; when it is `Some s` the document has
exactly one, whose text after the directive name is `s` enclosed in double
quotes verbatim, with no escaping. -/
theorem C6_include_filter_rendering (args : Args) :
    (args.include_filter = none →
      countDir "include_filter" (renderLines args) = 0) ∧
    (∀ s, args.include_filter = some s →
      countDir "include_filter" (renderLines args) = 1 ∧
      dirText "include_filter" (renderLines args) =
        some ("\"" ++ s ++ "\"")) := by
  obtain ⟨host, ifilt, user, pass, maxsql, dbm, evs⟩ := args
  constructor
  · intro h
    subst h
    rcases dbm with _ | mp <;> rfl
  · intro s h
    subst h
    rcases dbm with _ | mp <;> exact ⟨rfl, rfl⟩

/-- Witness for C6: no filter, and the filter `SELECT%` with an embedded
quote left unescaped. -/
theorem C6_include_filter_rendering_witness :
    (countDir "include_filter"
      (renderLines ⟨none, none, "u", "p", 65536, none, ["errors"]⟩) = 0) ∧
    (countDir "include_filter"
        (renderLines ⟨none, some "SELECT \"x\"", "u", "p", 65536, none,
          ["errors"]⟩) = 1 ∧
      dirText "include_filter"
        (renderLines ⟨none, some "SELECT \"x\"", "u", "p", 65536, none,
          ["errors"]⟩) = some ("\"" ++ "SELECT \"x\"" ++ "\"")) :=
  ⟨(C6_include_filter_rendering
      ⟨none, none, "u", "p", 65536, none, ["errors"]⟩).1 rfl,
    (C6_include_filter_rendering
      ⟨none, some "SELECT \"x\"", "u", "p", 65536, none, ["errors"]⟩).2
      "SELECT \"x\"" rfl⟩

/-- C7: When `databaseMatcher` is `None` the document opens (after the
template's leading empty line) with the unparameterized `<database>` tag;
when it is `Some p` it opens with `<database p>`, with `p` verbatim; and in
both cases the document's last line is the closing tag `</database>`, whose
tag name matches the opening tag's. -/
theorem C7_database_tag_rendering (args : Args) :
    (args.database_matcher = none →
      openingLine (renderLines args) = some "<database>") ∧
    (∀ p, args.database_matcher = some p →
      openingLine (renderLines args) = some ("<database " ++ p ++ ">")) ∧
    (renderLines args).getLast? = some "</database>" ∧
    (∀ l, openingLine (renderLines args) = some l →
      closeTagName "</database>" = openTagName l) := by
  obtain ⟨host, ifilt, user, pass, maxsql, dbm, evs⟩ := args
  refine ⟨?_, ?_, rfl, ?_⟩
  · intro h; subst h; rfl
  · intro p h; subst h; rfl
  · intro l hl
    rcases dbm with _ | p
    · have hl' : some "<database>" = some l := hl
      obtain rfl := (Option.some.inj hl').symm
      rfl
    · have hl' : some ("<database " ++ p ++ ">") = some l := hl
      obtain rfl := (Option.some.inj hl').symm
      rfl

/-- Witness for C7: no matcher, and the matcher `MYDB`
(spec §8, scenario 2). -/
theorem C7_database_tag_rendering_witness :
    (openingLine (renderLines ⟨none, none, "u", "p", 65536, none,
      ["errors"]⟩) = some "<database>") ∧
    (openingLine (renderLines ⟨none, none, "u", "p", 65536, some "MYDB",
      ["errors"]⟩) = some ("<database " ++ "MYDB" ++ ">")) ∧
    ((renderLines ⟨none, none, "u", "p", 65536, some "MYDB",
      ["errors"]⟩).getLast? = some "</database>") ∧
    (closeTagName "</database>" = openTagName "<database MYDB>") :=
  ⟨(C7_database_tag_rendering
      ⟨none, none, "u", "p", 65536, none, ["errors"]⟩).1 rfl,
    (C7_database_tag_rendering
      ⟨none, none, "u", "p", 65536, some "MYDB", ["errors"]⟩).2.1 "MYDB" rfl,
    (C7_database_tag_rendering
      ⟨none, none, "u", "p", 65536, some "MYDB", ["errors"]⟩).2.2.1,
    (C7_database_tag_rendering
      ⟨none, none, "u", "p", 65536, some "MYDB", ["errors"]⟩).2.2.2
      "<database MYDB>" rfl⟩

/-- C8: The `fbtracemgr` invocation is built as `-SE <host>:service_mgr`
when a host is present and `-SE service_mgr` when absent; user and password
are passed through unmodified; the session name is the fixed constant
`rust-fbtrace`; and the `-CONFIG` argument is the fixed path
`fbtrace.conf`, the same path the renderer opens. -/
theorem C8_fbtracemgr_argument_construction (args : Args) (w : World) :
    (args.host = none →
      fbtracemgrArgs args = ["-SE", "service_mgr", "-USER", args.user,
        "-PASS", args.pass, "-START", "-NAME", "rust-fbtrace",
        "-CONFIG", "fbtrace.conf"]) ∧
    (∀ h, args.host = some h →
      fbtracemgrArgs args = ["-SE", h ++ ":service_mgr", "-USER", args.user,
        "-PASS", args.pass, "-START", "-NAME", "rust-fbtrace",
        "-CONFIG", "fbtrace.conf"]) ∧
    TRACE_NAME = "rust-fbtrace" ∧ CONFIG_FILE_NAME = "fbtrace.conf" ∧
    ((runMain args w).openAttempted = true →
      (runMain args w).writePath = some CONFIG_FILE_NAME) := by
  refine ⟨?_, ?_, rfl, rfl, writePath_of_openAttempted args w⟩
  · intro h
    obtain ⟨host, ifilt, user, pass, maxsql, dbm, evs⟩ := args
    subst h
    rfl
  · intro hh h
    obtain ⟨host, ifilt, user, pass, maxsql, dbm, evs⟩ := args
    subst h
    rfl

/-- Witness for C8: the local and the remote service target. -/
theorem C8_fbtracemgr_argument_construction_witness :
    (fbtracemgrArgs ⟨none, none, "sysdba", "masterkey", 65536, none,
        ["errors"]⟩ =
      ["-SE", "service_mgr", "-USER", "sysdba", "-PASS", "masterkey",
        "-START", "-NAME", "rust-fbtrace", "-CONFIG", "fbtrace.conf"]) ∧
    (fbtracemgrArgs ⟨some "fbhost", none, "sysdba", "masterkey", 65536, none,
        ["errors"]⟩ =
      ["-SE", "fbhost" ++ ":service_mgr", "-USER", "sysdba", "-PASS",
        "masterkey", "-START", "-NAME", "rust-fbtrace", "-CONFIG",
        "fbtrace.conf"]) ∧
    ((runMain ⟨none, none, "sysdba", "masterkey", 65536, none, ["errors"]⟩
        ⟨none, none, none, Except.ok 0⟩).writePath = some CONFIG_FILE_NAME) :=
  ⟨(C8_fbtracemgr_argument_construction
      ⟨none, none, "sysdba", "masterkey", 65536, none, ["errors"]⟩
      ⟨none, none, none, Except.ok 0⟩).1 rfl,
    (C8_fbtracemgr_argument_construction
      ⟨some "fbhost", none, "sysdba", "masterkey", 65536, none, ["errors"]⟩
      ⟨none, none, none, Except.ok 0⟩).2.1 "fbhost" rfl,
    (C8_fbtracemgr_argument_construction
      ⟨none, none, "sysdba", "masterkey", 65536, none, ["errors"]⟩
      ⟨none, none, none, Except.ok 0⟩).2.2.2.2 rfl⟩

/-- C9: If spawning fails the run ends with the fatal launch error (`Dyn`)
without any wait and with a non-zero exit; if spawning succeeds the run
waits for the child and returns success; a zero exit happens only after the
child has been waited on; and the run's outcome does not depend on the
wait's result (the child's own exit status or error). -/
theorem C9_spawn_failure_and_wait (args : Args) (w : World) :
    (∀ m, validate args.events = Except.ok () → w.openErr = none →
      w.writeErr = none → w.spawnErr = some m →
      (runMain args w).result = Except.error (AppError.Dyn m) ∧
      (runMain args w).waited = false ∧ exitCode (runMain args w) ≠ 0) ∧
    (validate args.events = Except.ok () → w.openErr = none →
      w.writeErr = none → w.spawnErr = none →
      (runMain args w).waited = true ∧
      (runMain args w).result = Except.ok () ∧
      exitCode (runMain args w) = 0) ∧
    (exitCode (runMain args w) = 0 → (runMain args w).waited = true) ∧
    (∀ r₁ r₂ : Except String Int,
      runMain args ⟨w.openErr, w.writeErr, w.spawnErr, r₁⟩ =
        runMain args ⟨w.openErr, w.writeErr, w.spawnErr, r₂⟩) := by
  rcases w with ⟨oe, we, se, wr⟩
  cases hv : validate args.events <;>
    rcases oe with _ | m1 <;> rcases we with _ | m2 <;> rcases se with _ | m3 <;>
      refine ⟨?_, ?_, ?_, ?_⟩ <;>
        simp_all [runMain, exitCode]

/-- Witness for C9: a spawn failure and a successful spawn at a valid
request. -/
theorem C9_spawn_failure_and_wait_witness :
    ((runMain ⟨none, none, "u", "p", 65536, none, ["errors"]⟩
        ⟨none, none, some "not found", Except.ok 0⟩).result =
          Except.error (AppError.Dyn "not found") ∧
      (runMain ⟨none, none, "u", "p", 65536, none, ["errors"]⟩
        ⟨none, none, some "not found", Except.ok 0⟩).waited = false ∧
      exitCode (runMain ⟨none, none, "u", "p", 65536, none, ["errors"]⟩
        ⟨none, none, some "not found", Except.ok 0⟩) ≠ 0) ∧
    ((runMain ⟨none, none, "u", "p", 65536, none, ["errors"]⟩
        ⟨none, none, none, Except.ok 7⟩).waited = true ∧
      (runMain ⟨none, none, "u", "p", 65536, none, ["errors"]⟩
        ⟨none, none, none, Except.ok 7⟩).result = Except.ok () ∧
      exitCode (runMain ⟨none, none, "u", "p", 65536, none, ["errors"]⟩
        ⟨none, none, none, Except.ok 7⟩) = 0) ∧
    (runMain ⟨none, none, "u", "p", 65536, none, ["errors"]⟩
        ⟨none, none, none, Except.ok 7⟩ =
      runMain ⟨none, none, "u", "p", 65536, none, ["errors"]⟩
        ⟨none, none, none, Except.error "sig"⟩) :=
  ⟨(C9_spawn_failure_and_wait
      ⟨none, none, "u", "p", 65536, none, ["errors"]⟩
      ⟨none, none, some "not found", Except.ok 0⟩).1 "not found"
      rfl rfl rfl rfl,
    (C9_spawn_failure_and_wait
      ⟨none, none, "u", "p", 65536, none, ["errors"]⟩
      ⟨none, none, none, Except.ok 7⟩).2.1 rfl rfl rfl rfl,
    (C9_spawn_failure_and_wait
      ⟨none, none, "u", "p", 65536, none, ["errors"]⟩
      ⟨none, none, none, Except.ok 7⟩).2.2.2 (Except.ok 7)
      (Except.error "sig")⟩

/-- C10: If the spawn succeeds but the wait on the child itself returns an
operating-system error, that error is discarded (`let _ = ... r.wait()`)
and the program still terminates with a success (zero) exit after having
waited. -/
theorem C10_wait_error_discarded (args : Args) (w : World) (m : String)
    (hv : validate args.events = Except.ok ()) (ho : w.openErr = none)
    (hw : w.writeErr = none) (hs : w.spawnErr = none)
    (_hr : w.waitRes = Except.error m) :
    (runMain args w).result = Except.ok () ∧ exitCode (runMain args w) = 0 ∧
    (runMain args w).waited = true := by
  unfold runMain
  rw [hv, ho, hw, hs]
  exact ⟨rfl, rfl, rfl⟩

/-- Witness for C10: a wait that errors out still yields a zero exit. -/
theorem C10_wait_error_discarded_witness :
    (runMain ⟨none, none, "u", "p", 65536, none, ["errors"]⟩
        ⟨none, none, none, Except.error "interrupted"⟩).result =
      Except.ok () ∧
    exitCode (runMain ⟨none, none, "u", "p", 65536, none, ["errors"]⟩
        ⟨none, none, none, Except.error "interrupted"⟩) = 0 ∧
    (runMain ⟨none, none, "u", "p", 65536, none, ["errors"]⟩
        ⟨none, none, none, Except.error "interrupted"⟩).waited = true :=
  C10_wait_error_discarded
    ⟨none, none, "u", "p", 65536, none, ["errors"]⟩
    ⟨none, none, none, Except.error "interrupted"⟩ "interrupted"
    rfl rfl rfl rfl rfl

end Fbtrace
